import Mathlib

/-
Shallow embedding of `models/dense_net_3d.py` (class DenseNet3D).

Modelling conventions:
* Python integers are `Int` (or `Nat` where the source value is a count that
  is manifestly non-negative); Python `//` is floor division (`Int.fdiv`),
  and `// 0` raises `ZeroDivisionError`, modelled with `Except String`.
* Python floats that only undergo exact arithmetic (learning rates, the
  `reduction` factor) are modelled as `ℚ`.
* `np.mean` of an empty list is NaN; a NaN result is modelled as `none` in
  `Option ℚ`, a defined mean as `some`.
* Tensors are tracked through the shape/channel bookkeeping the claims are
  about: each layer primitive is embedded as its effect on the channel
  count of the 5-d feature map `[batch, seq, height, width, channels]`,
  plus, for graph construction, the trace of emitted operations.
-/

namespace DenseNet3D

/-! ## Python primitives -/

/-- Python floor division `a // b` on ints: floors, and raises
`ZeroDivisionError` when the divisor is zero. -/
def pyFloorDiv (a b : ℤ) : Except String ℤ :=
  if b = 0 then Except.error "ZeroDivisionError" else Except.ok (Int.fdiv a b)

/-- Python `int(x)` on a float: truncation toward zero. -/
def pyInt (q : ℚ) : ℤ :=
  if 0 ≤ q then ⌊q⌋ else ⌈q⌉

/-- Python's `if not x: x = d` idiom applied to an optional integer
argument: `None` and `0` are both falsy and replaced by the default. -/
def pyOr (v : Option ℕ) (d : ℕ) : ℕ :=
  match v with
  | none => d
  | some x => if x = 0 then d else x

/-! ## Constructor: hyperparameter derivation (`__init__`, lines 46-84) -/

/-- The constructor arguments that determine graph topology. -/
structure InitConfig where
  growth_rate : ℤ
  depth : ℤ
  total_blocks : ℤ
  bc_mode : Bool
  reduction : ℚ
  deriving DecidableEq

/-- The derived fields stored on the object by `__init__`. -/
structure NetParams where
  growth_rate : ℤ
  depth : ℤ
  total_blocks : ℤ
  bc_mode : Bool
  reduction : ℚ
  first_output_features : ℤ
  layers_per_block : ℤ
  deriving DecidableEq

/-- `__init__` lines 53-64: `first_output_features = growth_rate * 2`,
`layers_per_block = (depth - (total_blocks + 1)) // total_blocks`, halved
(floor) again in bc mode. The only failure mode is the `ZeroDivisionError`
raised by `//` when `total_blocks == 0`; no other validation is performed. -/
def denseNetInit (cfg : InitConfig) : Except String NetParams :=
  match pyFloorDiv (cfg.depth - (cfg.total_blocks + 1)) cfg.total_blocks with
  | Except.error e => Except.error e
  | Except.ok lpb =>
      Except.ok
        { growth_rate := cfg.growth_rate
          depth := cfg.depth
          total_blocks := cfg.total_blocks
          bc_mode := cfg.bc_mode
          reduction := cfg.reduction
          first_output_features := cfg.growth_rate * 2
          layers_per_block := if cfg.bc_mode then Int.fdiv lpb 2 else lpb }

/-! ## Layer primitives: channel bookkeeping -/

/-- `batch_norm` (lines 363-368) preserves the channel count. -/
def batch_norm_channels (c : ℕ) : ℕ := c

/-- `tf.nn.relu` preserves the channel count. -/
def relu_channels (c : ℕ) : ℕ := c

/-- `dropout` (lines 371-381) preserves the channel count. -/
def dropout_channels (c : ℕ) : ℕ := c

/-- `conv3d` (lines 335-343) outputs `out_features` channels. -/
def conv3d_channels (_c out_features : ℕ) : ℕ := out_features

/-- `composite_function` (lines 208-226): BN, ReLU, conv3d to
`out_features`, dropout. -/
def composite_function_channels (c out_features : ℕ) : ℕ :=
  dropout_channels (conv3d_channels (relu_channels (batch_norm_channels c)) out_features)

/-- `bottleneck` line 234: `inter_features = out_features * 4`. -/
def bottleneck_inter_features (out_features : ℕ) : ℕ := out_features * 4

/-- `bottleneck` (lines 229-239): BN, ReLU, 1x1x1 conv3d to
`out_features * 4` channels, dropout. -/
def bottleneck_channels (c out_features : ℕ) : ℕ :=
  dropout_channels
    (conv3d_channels (relu_channels (batch_norm_channels c)) (bottleneck_inter_features out_features))

/-- `tf.concat(axis=4, values=(a, b))` on two feature maps agreeing on the
first four dims: channel counts add. -/
def concat_axis4_channels (a b : ℕ) : ℕ := a + b

/-- `add_internal_layer` (lines 242-260): composite function with a 3x3x3
kernel (preceded by a bottleneck in bc mode), then concatenation of the
layer input with the composite output along axis 4. -/
def add_internal_layer_channels (bc_mode : Bool) (c growth_rate : ℕ) : ℕ :=
  if !bc_mode then
    concat_axis4_channels c (composite_function_channels c growth_rate)
  else
    concat_axis4_channels c
      (composite_function_channels (bottleneck_channels c growth_rate) growth_rate)

/-- `add_block` (lines 263-269) after its first `n` loop iterations:
`add_internal_layer` applied `n` times starting from the block input. -/
def add_block_channels (bc_mode : Bool) (c growth_rate : ℕ) : ℕ → ℕ
  | 0 => c
  | n + 1 => add_internal_layer_channels bc_mode (add_block_channels bc_mode c growth_rate n) growth_rate

/-! ## Pooling (`pool`, lines 346-360) -/

/-- The pooling invocation `pool` hands to the backend: window, strides,
padding, and which backend op runs. -/
structure PoolCall where
  ksize : List ℕ
  strides : List ℕ
  padding : String
  op : String
  deriving DecidableEq

/-- `pool` (lines 346-360). Optional arguments default through Python
falsiness (`pyOr`): `width_k = k`, `k_stride = k`,
`k_stride_width = k_stride`, `d_stride = d`. The source compares `type`
with `is` against the interned literals; for the strings reaching this
function that is string equality. An unrecognized `type` leaves `output`
as `None`: no pooled output. -/
def pool (k d : ℕ) (width_k : Option ℕ) (ptype : String)
    (k_stride d_stride k_stride_width : Option ℕ) : Option PoolCall :=
  let width_k := pyOr width_k k
  let ksize := [1, d, k, width_k, 1]
  let k_stride := pyOr k_stride k
  let k_stride_width := pyOr k_stride_width k_stride
  let d_stride := pyOr d_stride d
  let strides := [1, d_stride, k_stride, k_stride_width, 1]
  if ptype = "max" then some ⟨ksize, strides, "SAME", "max_pool3d"⟩
  else if ptype = "avg" then some ⟨ksize, strides, "SAME", "avg_pool3d"⟩
  else none

/-! ## Transition layer (lines 272-282) -/

/-- What `transition_layer` does, at the shape/call level: the compressed
channel count, the kernel size of the compressing composite function, and
the pooling call it issues. -/
structure TransitionResult where
  out_features : ℤ
  comp_kernel_size : ℕ
  poolCall : Option PoolCall
  deriving DecidableEq

/-- `transition_layer` (lines 272-282):
`out_features = int(channels * reduction)`, composite function with a 1x1x1
kernel, then `pool(k=2, d=pool_depth)` (average pooling by default). -/
def transition_layer (channels : ℕ) (reduction : ℚ) (pool_depth : ℕ) : TransitionResult :=
  { out_features := pyInt ((channels : ℚ) * reduction)
    comp_kernel_size := 1
    poolCall := pool 2 pool_depth none "avg" none none none }

/-! ## Graph construction trace (`_build_graph`, lines 403-429) -/

/-- One operation emitted while building the forward graph. `add_block`
and `transition_layer` appear as single named steps (their internals are
embedded separately above). -/
inductive GraphOp where
  | conv3dOp (kernel_size : ℕ) (strides : List ℕ) (out_features : ℤ)
  | poolOp (call : Option PoolCall)
  | addBlockOp (growth_rate layers_per_block : ℤ)
  | transitionOp (pool_depth : ℕ)
  | toClassesOp
  deriving DecidableEq

/-- `_build_graph` (lines 403-429) as the sequence of operations it runs:
initial `conv3d(out_features=first_output_features, kernel_size=7,
strides=[1,1,2,2,1])`, then `pool(k=3, d=3, k_stride=2, d_stride=1)`; then
for each `block in range(total_blocks)` an `add_block`, followed by a
`transition_layer(pool_depth=2)` whenever `block != total_blocks - 1`;
finally the transition to classes producing the logits. -/
def buildGraphTrace (p : NetParams) : List GraphOp :=
  [GraphOp.conv3dOp 7 [1, 1, 2, 2, 1] p.first_output_features,
   GraphOp.poolOp (pool 3 3 none "avg" (some 2) (some 1) none)] ++
  ((List.range p.total_blocks.toNat).map (fun (block : ℕ) =>
      GraphOp.addBlockOp p.growth_rate p.layers_per_block ::
        (if (block : ℤ) ≠ p.total_blocks - 1 then [GraphOp.transitionOp 2] else []))).flatten ++
  [GraphOp.toClassesOp]

/-- The build order as the specification words it: initial 7-kernel
convolution with strides `[1,1,2,2,1]` into `first_output_features`
channels, a k=3 pooling window with depth-stride 1 and spatial-stride 2,
then each block followed by a `pool_depth=2` transition exactly when a
further block follows, then the transition to classes. -/
def claimedGraphTrace (p : NetParams) : List GraphOp :=
  [GraphOp.conv3dOp 7 [1, 1, 2, 2, 1] p.first_output_features,
   GraphOp.poolOp (some ⟨[1, 3, 3, 3, 1], [1, 1, 2, 2, 1], "SAME", "avg_pool3d"⟩)] ++
  ((List.range p.total_blocks.toNat).map (fun block =>
      GraphOp.addBlockOp p.growth_rate p.layers_per_block ::
        (if block + 1 < p.total_blocks.toNat then [GraphOp.transitionOp 2] else []))).flatten ++
  [GraphOp.toClassesOp]

/-! ## Training loop (`train_all_epochs`, lines 450-498) -/

/-- Per-epoch learning rate (lines 465-472): start from the initial rate,
divide by 10 when `epoch >= reduce_lr_epoch_1 and epoch < reduce_lr_epoch_2`,
else divide by 100 when `epoch >= reduce_lr_epoch_2`. The value is rebuilt
from `init_learning_rate` at the top of every loop iteration. -/
def epoch_learning_rate (init_lr : ℚ) (reduce_lr_epoch_1 reduce_lr_epoch_2 epoch : ℕ) : ℚ :=
  if reduce_lr_epoch_1 ≤ epoch ∧ epoch < reduce_lr_epoch_2 then init_lr / 10
  else if reduce_lr_epoch_2 ≤ epoch then init_lr / 100
  else init_lr

/-- Result of `load_model` (lines 156-173). -/
structure LoadResult where
  start_epoch : ℕ
  message : String
  restored : Bool
  deriving DecidableEq

/-- `load_model` (lines 156-173): with a checkpoint present (its path
ending in the saved epoch number) restore and return `epoch + 1`; with no
checkpoint print "Training from scratch" and return 1. -/
def load_model (checkpoint_epoch : Option ℕ) : LoadResult :=
  match checkpoint_epoch with
  | some e => ⟨e + 1, "Successfully load model", true⟩
  | none => ⟨1, "Training from scratch", false⟩

/-- The epochs executed by the loop `for epoch in range(start_epoch,
n_epochs + 1)` (line 462). -/
def trainedEpochs (start_epoch n_epochs : ℕ) : List ℕ :=
  List.range' start_epoch (n_epochs + 1 - start_epoch)

/-- The epochs `train_all_epochs` runs, as a function of the checkpoint
state found by `load_model` (lines 459-462). -/
def train_all_epochs_schedule (checkpoint_epoch : Option ℕ) (n_epochs : ℕ) : List ℕ :=
  trainedEpochs (load_model checkpoint_epoch).start_epoch n_epochs

/-! ## Per-epoch batch loop (`train_one_epoch` lines 501-529, `test` lines 532-549) -/

/-- `np.mean` of a list: NaN (modelled `none`) on the empty list, else the
arithmetic mean. -/
def npMean (l : List ℚ) : Option ℚ :=
  if l = [] then none else some (l.sum / (l.length : ℚ))

/-- Observable outcome of one pass over a data split. -/
structure EpochResult where
  train_steps : ℕ
  batches_run : ℕ
  examples_consumed : ℕ
  mean_loss : Option ℚ
  mean_accuracy : Option ℚ
  deriving DecidableEq

/-- `train_one_epoch` (lines 501-529): iterate `for i in
range(num_examples // batch_size)`, each iteration fetching one batch of
`batch_size` examples and running the optimizer step once; return
`np.mean` of the per-batch losses and accuracies. `batchLoss i` /
`batchAcc i` are the loss and accuracy the session reports on the i-th
batch. -/
def train_one_epoch (num_examples batch_size : ℕ) (batchLoss batchAcc : ℕ → ℚ) : EpochResult :=
  let n := num_examples / batch_size
  { train_steps := n
    batches_run := n
    examples_consumed := n * batch_size
    mean_loss := npMean ((List.range n).map batchLoss)
    mean_accuracy := npMean ((List.range n).map batchAcc) }

/-- `test` (lines 532-549): same batch loop as `train_one_epoch` but the
fetch list has no `train_step`, so no parameter update ever runs. -/
def test (num_examples batch_size : ℕ) (batchLoss batchAcc : ℕ → ℚ) : EpochResult :=
  let n := num_examples / batch_size
  { train_steps := 0
    batches_run := n
    examples_consumed := n * batch_size
    mean_loss := npMean ((List.range n).map batchLoss)
    mean_accuracy := npMean ((List.range n).map batchAcc) }

/-! ## Theorems -/

/-- C1: inside a block, after the i-th call of `add_internal_layer` the
feature map has `input_channels + i * growth_rate` channels — each
internal layer concatenates its input with a `growth_rate`-channel
composite output along axis 4 — and in bc mode the growth per layer is
unchanged, the layer only inserting a bottleneck tensor of width
`4 * growth_rate` before the 3x3x3 convolution. -/
theorem c1_channel_growth (bc_mode : Bool) (input_channels growth_rate i : ℕ) :
    add_block_channels bc_mode input_channels growth_rate i =
      input_channels + i * growth_rate ∧
    (bc_mode = true →
      bottleneck_channels (add_block_channels bc_mode input_channels growth_rate i) growth_rate =
        4 * growth_rate) := by
  constructor
  · induction i with
    | zero => simp [add_block_channels]
    | succ n ih =>
      cases bc_mode <;>
        simp [add_block_channels, add_internal_layer_channels, concat_axis4_channels,
          composite_function_channels, conv3d_channels, dropout_channels, relu_channels,
          batch_norm_channels, bottleneck_channels, bottleneck_inter_features, ih] <;>
        ring
  · intro _
    simp [bottleneck_channels, bottleneck_inter_features, conv3d_channels,
      dropout_channels, relu_channels, batch_norm_channels]
    ring

/-- Witness for C1 at `bc_mode = true`, input 24 channels, growth rate 12,
3 layers: 24 + 3·12 = 60 channels, bottleneck width 48. -/
theorem c1_channel_growth_witness :
    add_block_channels true 24 12 3 = 60 ∧
    bottleneck_channels (add_block_channels true 24 12 3) 12 = 48 := by
  have h := c1_channel_growth true 24 12 3
  exact ⟨by rw [h.1], by rw [h.2 rfl]⟩

/-- C2: for every configuration with positive `total_blocks`, construction
succeeds with `first_output_features = 2 * growth_rate` and
`layers_per_block = (depth - (total_blocks + 1)) // total_blocks`, floor
divided by 2 additionally when `bc_mode` is true. -/
theorem c2_derived_hyperparameters (cfg : InitConfig) (h : 0 < cfg.total_blocks) :
    (denseNetInit cfg).map NetParams.first_output_features =
      Except.ok (2 * cfg.growth_rate) ∧
    (denseNetInit cfg).map NetParams.layers_per_block =
      Except.ok (if cfg.bc_mode then
          Int.fdiv (Int.fdiv (cfg.depth - (cfg.total_blocks + 1)) cfg.total_blocks) 2
        else Int.fdiv (cfg.depth - (cfg.total_blocks + 1)) cfg.total_blocks) := by
  have hne : cfg.total_blocks ≠ 0 := by omega
  constructor
  · simp [denseNetInit, pyFloorDiv, hne, Except.map]
    ring
  · simp [denseNetInit, pyFloorDiv, hne, Except.map]

/-- Witness for C2: `growth_rate=12, depth=13, total_blocks=3,
bc_mode=False` gives `layers_per_block = 3` and
`first_output_features = 24`. -/
theorem c2_derived_hyperparameters_witness :
    (denseNetInit ⟨12, 13, 3, false, 1⟩).map NetParams.layers_per_block = Except.ok 3 ∧
    (denseNetInit ⟨12, 13, 3, false, 1⟩).map NetParams.first_output_features = Except.ok 24 := by
  have h := c2_derived_hyperparameters ⟨12, 13, 3, false, 1⟩ (by decide)
  exact ⟨by rw [h.2]; rfl, by rw [h.1]; rfl⟩

/-- C3: with `reduce_lr_epoch_1 ≤ reduce_lr_epoch_2`, the learning rate an
epoch trains with — recomputed each iteration from the initial rate, never
compounded — is the initial rate before the first threshold, a tenth of it
from the first threshold up to the second, and a hundredth of it from the
second threshold on. -/
theorem c3_learning_rate_schedule (init_lr : ℚ) (r1 r2 epoch : ℕ) (h : r1 ≤ r2) :
    (epoch < r1 → epoch_learning_rate init_lr r1 r2 epoch = init_lr) ∧
    (r1 ≤ epoch → epoch < r2 → epoch_learning_rate init_lr r1 r2 epoch = init_lr / 10) ∧
    (r2 ≤ epoch → epoch_learning_rate init_lr r1 r2 epoch = init_lr / 100) := by
  unfold epoch_learning_rate
  refine ⟨fun h1 => ?_, fun h1 h2 => ?_, fun h1 => ?_⟩ <;>
    split_ifs <;> first | rfl | omega

/-- Witness for C3: `initial_learning_rate = 1/10`, thresholds 50 and 75:
epoch 10 trains with 1/10, epoch 50 with 1/100, epoch 75 with 1/1000. -/
theorem c3_learning_rate_schedule_witness :
    epoch_learning_rate (1/10) 50 75 10 = 1/10 ∧
    epoch_learning_rate (1/10) 50 75 50 = 1/100 ∧
    epoch_learning_rate (1/10) 50 75 75 = 1/1000 := by
  refine ⟨(c3_learning_rate_schedule (1/10) 50 75 10 (by norm_num)).1 (by norm_num), ?_, ?_⟩
  · rw [(c3_learning_rate_schedule (1/10) 50 75 50 (by norm_num)).2.1 (by norm_num) (by norm_num)]
    norm_num
  · rw [(c3_learning_rate_schedule (1/10) 50 75 75 (by norm_num)).2.2 (by norm_num)]
    norm_num

/-- C4: `_build_graph` runs exactly the claimed sequence: the 7-kernel
initial convolution with strides `[1,1,2,2,1]` into `first_output_features`
channels, a k=3 pool with depth-stride 1 and spatial-stride 2, then for
each block index an `add_block` with a `pool_depth=2` transition layer
after every block except the last, and finally the transition to classes
producing the logits. -/
theorem c4_build_order (p : NetParams) : buildGraphTrace p = claimedGraphTrace p := by
  unfold buildGraphTrace claimedGraphTrace
  have hpool : pool 3 3 none "avg" (some 2) (some 1) none =
      some ⟨[1, 3, 3, 3, 1], [1, 1, 2, 2, 1], "SAME", "avg_pool3d"⟩ := rfl
  rw [hpool]
  congr 1
  congr 1
  apply congrArg List.flatten
  apply List.map_congr_left
  intro block hb
  rw [List.mem_range] at hb
  congr 1
  have hc : ((block : ℤ) ≠ p.total_blocks - 1) ↔ (block + 1 < p.total_blocks.toNat) := by
    omega
  simp only [hc]

/-- C5: `transition_layer` compresses the channel count to exactly
`⌊input_channels * reduction⌋` (for `reduction ∈ (0,1]` the Python `int`
truncation coincides with the floor) through a kernel-size-1 composite
function, then issues an average pool with spatial window and stride 2 and
the given `pool_depth` as depth stride. -/
theorem c5_transition_compression (channels pool_depth : ℕ) (reduction : ℚ)
    (h1 : 0 < reduction) (_h2 : reduction ≤ 1) :
    (transition_layer channels reduction pool_depth).out_features =
      ⌊(channels : ℚ) * reduction⌋ ∧
    (transition_layer channels reduction pool_depth).comp_kernel_size = 1 ∧
    (transition_layer channels reduction pool_depth).poolCall =
      some ⟨[1, pool_depth, 2, 2, 1], [1, pool_depth, 2, 2, 1], "SAME", "avg_pool3d"⟩ := by
  refine ⟨?_, rfl, rfl⟩
  have hnn : (0 : ℚ) ≤ (channels : ℚ) * reduction :=
    mul_nonneg (by positivity) h1.le
  simp [transition_layer, pyInt, hnn]

/-- Witness for C5: 10 input channels, reduction 1/2, pool depth 2 give 5
output channels and an average pool with window and strides
`[1,2,2,2,1]`. -/
theorem c5_transition_compression_witness :
    (transition_layer 10 (1/2) 2).out_features = 5 ∧
    (transition_layer 10 (1/2) 2).poolCall =
      some ⟨[1, 2, 2, 2, 1], [1, 2, 2, 2, 1], "SAME", "avg_pool3d"⟩ := by
  have h := c5_transition_compression 10 2 (1/2) (by norm_num) (by norm_num)
  refine ⟨?_, h.2.2⟩
  rw [h.1]
  norm_num

/-- C9: `pool` defaults omitted arguments as `width_k = k`, `k_stride = k`,
`k_stride_width = k_stride`, `d_stride = d`, producing window
`[1, d, k, width_k, 1]`, strides `[1, d_stride, k_stride, k_stride_width, 1]`
and SAME padding; `type='max'` selects max pooling, `type='avg'` average
pooling, and any other type value produces no pooled output. The last
conjunct shows a supplied `k_stride` flowing into the defaulted
`k_stride_width`. -/
theorem c9_pool_defaults (k d ks : ℕ) (ptype : String) :
    pool k d none "max" none none none =
      some ⟨[1, d, k, k, 1], [1, d, k, k, 1], "SAME", "max_pool3d"⟩ ∧
    pool k d none "avg" none none none =
      some ⟨[1, d, k, k, 1], [1, d, k, k, 1], "SAME", "avg_pool3d"⟩ ∧
    (ptype ≠ "max" → ptype ≠ "avg" → pool k d none ptype none none none = none) ∧
    (ks ≠ 0 → pool k d none "avg" (some ks) none none =
      some ⟨[1, d, k, k, 1], [1, d, ks, ks, 1], "SAME", "avg_pool3d"⟩) := by
  refine ⟨rfl, rfl, fun hmax havg => ?_, fun hks => ?_⟩
  · simp [pool, hmax, havg]
  · simp [pool, pyOr, hks]

/-- Witness for C9: at `k=3, d=2`, the unrecognized type "foo" yields no
output, and a supplied `k_stride=2` propagates into `k_stride_width`. -/
theorem c9_pool_defaults_witness :
    pool 3 2 none "foo" none none none = none ∧
    pool 3 2 none "avg" (some 2) none none =
      some ⟨[1, 2, 3, 3, 1], [1, 2, 2, 2, 1], "SAME", "avg_pool3d"⟩ := by
  have h := c9_pool_defaults 3 2 2 "foo"
  exact ⟨h.2.2.1 (by decide) (by decide), h.2.2.2 (by decide)⟩

/-- C6: the loop's start epoch is `load_model()`'s result — 1 with no
checkpoint (announced as training from scratch, not a failure), and
`saved_checkpoint_epoch + 1` with one — and the loop executes exactly the
epochs from the start epoch through `n_epochs`: an epoch is run iff it
lies in that range, so a run resumed at epoch `s` trains epochs `s`
through `n_epochs` and never touches earlier ones. -/
theorem c6_resume_epochs :
    (load_model none).start_epoch = 1 ∧
    (load_model none).message = "Training from scratch" ∧
    (∀ e : ℕ, (load_model (some e)).start_epoch = e + 1) ∧
    (∀ (checkpoint_epoch : Option ℕ) (n_epochs epoch : ℕ),
      epoch ∈ train_all_epochs_schedule checkpoint_epoch n_epochs ↔
        (load_model checkpoint_epoch).start_epoch ≤ epoch ∧ epoch ≤ n_epochs) := by
  refine ⟨rfl, rfl, fun e => rfl, fun ckpt n epoch => ?_⟩
  rw [train_all_epochs_schedule, trainedEpochs, List.mem_range']
  constructor
  · rintro ⟨i, hi, rfl⟩
    omega
  · rintro ⟨h1, h2⟩
    exact ⟨epoch - (load_model ckpt).start_epoch, by omega, by omega⟩

/-- C7: one epoch pass, training or testing, runs exactly
`num_examples / batch_size` full batches — consuming
`(num_examples / batch_size) * batch_size` examples, the remainder dropped
— and when at least one batch runs, the returned loss and accuracy are the
unweighted arithmetic means of the per-batch values. -/
theorem c7_batches_and_means (num_examples batch_size : ℕ) (L A : ℕ → ℚ)
    (_hb : 0 < batch_size) :
    (train_one_epoch num_examples batch_size L A).batches_run = num_examples / batch_size ∧
    (test num_examples batch_size L A).batches_run = num_examples / batch_size ∧
    (train_one_epoch num_examples batch_size L A).examples_consumed =
      num_examples / batch_size * batch_size ∧
    (test num_examples batch_size L A).examples_consumed =
      num_examples / batch_size * batch_size ∧
    (0 < num_examples / batch_size →
      (train_one_epoch num_examples batch_size L A).mean_loss =
        some (((List.range (num_examples / batch_size)).map L).sum /
          ((num_examples / batch_size : ℕ) : ℚ)) ∧
      (train_one_epoch num_examples batch_size L A).mean_accuracy =
        some (((List.range (num_examples / batch_size)).map A).sum /
          ((num_examples / batch_size : ℕ) : ℚ)) ∧
      (test num_examples batch_size L A).mean_loss =
        some (((List.range (num_examples / batch_size)).map L).sum /
          ((num_examples / batch_size : ℕ) : ℚ)) ∧
      (test num_examples batch_size L A).mean_accuracy =
        some (((List.range (num_examples / batch_size)).map A).sum /
          ((num_examples / batch_size : ℕ) : ℚ))) := by
  refine ⟨rfl, rfl, rfl, rfl, fun hn => ?_⟩
  have hne : List.range (num_examples / batch_size) ≠ [] := by
    simp [List.range_eq_nil]
    omega
  refine ⟨?_, ?_, ?_, ?_⟩ <;>
    simp [train_one_epoch, test, npMean, hne]

/-- Witness for C7: 10 examples, batch size 3: exactly 3 batches run,
consuming 9 examples, and constant per-batch loss 2 and accuracy 1 average
to 2 and 1. -/
theorem c7_batches_and_means_witness :
    (train_one_epoch 10 3 (fun _ => (2 : ℚ)) (fun _ => (1 : ℚ))).batches_run = 3 ∧
    (train_one_epoch 10 3 (fun _ => (2 : ℚ)) (fun _ => (1 : ℚ))).examples_consumed = 9 ∧
    (train_one_epoch 10 3 (fun _ => (2 : ℚ)) (fun _ => (1 : ℚ))).mean_loss = some 2 ∧
    (test 10 3 (fun _ => (2 : ℚ)) (fun _ => (1 : ℚ))).mean_accuracy = some 1 := by
  have h := c7_batches_and_means 10 3 (fun _ => (2 : ℚ)) (fun _ => (1 : ℚ)) (by norm_num)
  have hm := h.2.2.2.2 (by norm_num)
  refine ⟨h.1, h.2.2.1, ?_, ?_⟩
  · rw [hm.1]
    norm_num [List.range_succ]
  · rw [hm.2.2.2]
    norm_num [List.range_succ]

/-- C10: on a split where `num_examples / batch_size = 0` (in particular
`0 < num_examples < batch_size`), `train_one_epoch` and `test` run zero
batches, perform zero optimizer steps, and return the NaN mean of an empty
sequence (modelled `none`) for both loss and accuracy — no error is raised
and no zero is substituted. -/
theorem c10_empty_split (num_examples batch_size : ℕ) (L A : ℕ → ℚ)
    (_hb : 0 < batch_size) (h : num_examples / batch_size = 0) :
    (train_one_epoch num_examples batch_size L A).train_steps = 0 ∧
    (train_one_epoch num_examples batch_size L A).batches_run = 0 ∧
    (train_one_epoch num_examples batch_size L A).mean_loss = none ∧
    (train_one_epoch num_examples batch_size L A).mean_accuracy = none ∧
    (test num_examples batch_size L A).batches_run = 0 ∧
    (test num_examples batch_size L A).mean_loss = none ∧
    (test num_examples batch_size L A).mean_accuracy = none := by
  refine ⟨h, h, ?_, ?_, h, ?_, ?_⟩ <;>
    simp [train_one_epoch, test, npMean, h]

/-- Witness for C10: 3 examples with batch size 5 run zero batches, zero
optimizer steps, and both means are the empty-mean NaN marker. -/
theorem c10_empty_split_witness :
    (train_one_epoch 3 5 (fun _ => (0 : ℚ)) (fun _ => (0 : ℚ))).train_steps = 0 ∧
    (train_one_epoch 3 5 (fun _ => (0 : ℚ)) (fun _ => (0 : ℚ))).batches_run = 0 ∧
    (train_one_epoch 3 5 (fun _ => (0 : ℚ)) (fun _ => (0 : ℚ))).mean_loss = none ∧
    (train_one_epoch 3 5 (fun _ => (0 : ℚ)) (fun _ => (0 : ℚ))).mean_accuracy = none ∧
    (test 3 5 (fun _ => (0 : ℚ)) (fun _ => (0 : ℚ))).batches_run = 0 ∧
    (test 3 5 (fun _ => (0 : ℚ)) (fun _ => (0 : ℚ))).mean_loss = none ∧
    (test 3 5 (fun _ => (0 : ℚ)) (fun _ => (0 : ℚ))).mean_accuracy = none :=
  c10_empty_split 3 5 (fun _ => (0 : ℚ)) (fun _ => (0 : ℚ)) (by norm_num) (by norm_num)

/-- C8 counterexample: with `growth_rate=12, depth=4, total_blocks=3`
(not bc mode) the derived `layers_per_block` is 0, yet construction
succeeds — no configuration error is raised, contradicting the claim that
such configurations are rejected before graph work. -/
theorem c8_no_validation_counterexample :
    denseNetInit ⟨12, 4, 3, false, 1⟩ =
      Except.ok ⟨12, 4, 3, false, 1, 24, 0⟩ ∧
    (denseNetInit ⟨12, 4, 3, false, 1⟩).toOption.isSome = true := ⟨rfl, rfl⟩

/-- C8 amended: construction validates nothing. `total_blocks = 0` aborts
with the `ZeroDivisionError` raised while computing `layers_per_block`
(before any graph work); every other configuration — including negative
`total_blocks` and configurations whose `layers_per_block` is zero or
negative — constructs successfully. -/
theorem c8_no_config_validation (cfg : InitConfig) :
    (cfg.total_blocks = 0 →
      denseNetInit cfg = Except.error "ZeroDivisionError") ∧
    (cfg.total_blocks ≠ 0 → (denseNetInit cfg).toOption.isSome = true) := by
  constructor
  · intro h0
    simp [denseNetInit, pyFloorDiv, h0]
  · intro hne
    simp [denseNetInit, pyFloorDiv, hne, Except.toOption]

/-- Witness for the amended C8: `total_blocks = 0` yields the division
error; `depth = 4, total_blocks = 3` (zero layers per block) builds
without error. -/
theorem c8_no_config_validation_witness :
    denseNetInit ⟨12, 40, 0, false, 1⟩ = Except.error "ZeroDivisionError" ∧
    (denseNetInit ⟨12, 4, 3, false, 1⟩).toOption.isSome = true :=
  ⟨(c8_no_config_validation ⟨12, 40, 0, false, 1⟩).1 rfl,
   (c8_no_config_validation ⟨12, 4, 3, false, 1⟩).2 (by decide)⟩

end DenseNet3D
